import Mathlib

/-!
Verification of the frostgate-core Decision Engine & Audit Chain.

This file gives a shallow embedding, in Lean 4, of the decision engine of the
frostgate-core repository and proves the specified properties about it.

The embedded code comprises:
* `src/api/defend.py` — event normalization helpers, event identity,
  the MVP rule evaluator, the doctrine gate `_apply_doctrine`, the
  tamper-evident chain-hash computation and the best-effort persistence step;
* `src/engine/rules.py` — the rules engine `evaluate_rules`;
* `src/engine/tied.py` — the TIED impact estimator `estimate_impact`;
* `src/api/decision_diff.py` — the decision diff engine.

Python machine-level details are modelled as follows: `int` is `Int`,
`float` arithmetic in the TIED estimator is modelled over `ℚ` (all constants
involved are decimal literals and every comparison in the estimator is
bounded away from the cut points, so rational arithmetic is faithful);
`hashlib.sha256` is the FIPS 180-4 SHA-256 function, implemented here over
byte lists with `Nat` words reduced mod 2^32; JSON payload dictionaries are
association lists `List (String × Val)` whose order models Python dict
insertion order.
-/

namespace Frostgate

/-! ## SHA-256 (FIPS 180-4), as used by `hashlib.sha256(...).hexdigest()`

Words are `Nat` values kept below `2^32` by explicit reduction. -/

/-- Reduce to a 32-bit word. -/
def w32 (x : Nat) : Nat := x % 4294967296

/-- Logical right shift on a 32-bit word. -/
def shr32 (x n : Nat) : Nat := x / 2 ^ n

/-- Right rotation on a 32-bit word. -/
def rotr32 (x n : Nat) : Nat := x / 2 ^ n + x % 2 ^ n * 2 ^ (32 - n)

/-- Bitwise complement on 32 bits. -/
def not32 (x : Nat) : Nat := Nat.xor x 4294967295

def ch32 (e f g : Nat) : Nat := Nat.xor (Nat.land e f) (Nat.land (not32 e) g)

def maj32 (a b c : Nat) : Nat :=
  Nat.xor (Nat.land a b) (Nat.xor (Nat.land a c) (Nat.land b c))

def bigSigma0 (x : Nat) : Nat := Nat.xor (rotr32 x 2) (Nat.xor (rotr32 x 13) (rotr32 x 22))

def bigSigma1 (x : Nat) : Nat := Nat.xor (rotr32 x 6) (Nat.xor (rotr32 x 11) (rotr32 x 25))

def smallSigma0 (x : Nat) : Nat := Nat.xor (rotr32 x 7) (Nat.xor (rotr32 x 18) (shr32 x 3))

def smallSigma1 (x : Nat) : Nat := Nat.xor (rotr32 x 17) (Nat.xor (rotr32 x 19) (shr32 x 10))

/-- The 64 SHA-256 round constants (FIPS 180-4, in decimal). -/
def shaK : List Nat :=
  [1116352408, 1899447441, 3049323471, 3921009573, 961987163, 1508970993,
   2453635748, 2870763221, 3624381080, 310598401, 607225278, 1426881987,
   1925078388, 2162078206, 2614888103, 3248222580, 3835390401, 4022224774,
   264347078, 604807628, 770255983, 1249150122, 1555081692, 1996064986,
   2554220882, 2821834349, 2952996808, 3210313671, 3336571891, 3584528711,
   113926993, 338241895, 666307205, 773529912, 1294757372, 1396182291,
   1695183700, 1986661051, 2177026350, 2456956037, 2730485921, 2820302411,
   3259730800, 3345764771, 3516065817, 3600352804, 4094571909, 275423344,
   430227734, 506948616, 659060556, 883997877, 958139571, 1322822218,
   1537002063, 1747873779, 1955562222, 2024104815, 2227730452, 2361852424,
   2428436474, 2756734187, 3204031479, 3329325298]

/-- The SHA-256 initial hash value (FIPS 180-4, in decimal). -/
def shaH0 : List Nat :=
  [1779033703, 3144134277, 1013904242, 2773480762,
   1359893119, 2600822924, 528734635, 1541459225]

/-- Big-endian byte rendering of `n` on `k` bytes. -/
def bytesBE (k n : Nat) : List Nat :=
  (List.range k).map fun i => n / 2 ^ (8 * (k - 1 - i)) % 256

/-- SHA-256 message padding: append `0x80`, zero bytes, then the 64-bit
big-endian bit length, so that the total length is a multiple of 64. -/
def shaPad (m : List Nat) : List Nat :=
  m ++ [128] ++ List.replicate ((119 - m.length % 64) % 64) 0 ++ bytesBE 8 (8 * m.length)

/-- The 16 big-endian 32-bit words of one 64-byte block. -/
def blockWords (b : List Nat) : List Nat :=
  (List.range 16).map fun j =>
    b.getD (4 * j) 0 * 16777216 + b.getD (4 * j + 1) 0 * 65536 +
      b.getD (4 * j + 2) 0 * 256 + b.getD (4 * j + 3) 0

/-- Extend the 16 block words to the 64-entry message schedule. -/
def shaSchedule (ws : List Nat) : List Nat :=
  (List.range 48).foldl
    (fun acc _ =>
      let i := acc.length
      acc ++ [w32 (smallSigma1 (acc.getD (i - 2) 0) + acc.getD (i - 7) 0 +
        smallSigma0 (acc.getD (i - 15) 0) + acc.getD (i - 16) 0)])
    ws

/-- One round of the SHA-256 compression function. -/
def shaRound (w : List Nat) (s : List Nat) (t : Nat) : List Nat :=
  match s with
  | [a, b, c, d, e, f, g, h] =>
    let t1 := w32 (h + bigSigma1 e + ch32 e f g + (shaK.getD t 0) + w.getD t 0)
    let t2 := w32 (bigSigma0 a + maj32 a b c)
    [w32 (t1 + t2), a, b, c, w32 (d + t1), e, f, g]
  | s => s

/-- Process one 64-byte block into the running hash state. -/
def shaCompress (st : List Nat) (b : List Nat) : List Nat :=
  let w := shaSchedule (blockWords b)
  let f := (List.range 64).foldl (shaRound w) st
  (st.zip f).map fun p => w32 (p.1 + p.2)

/-- SHA-256 digest of a byte list, as eight 32-bit words. -/
def sha256words (m : List Nat) : List Nat :=
  let p := shaPad m
  (List.range (p.length / 64)).foldl
    (fun st i => shaCompress st ((p.drop (64 * i)).take 64)) shaH0

/-- Lowercase hexadecimal digit. -/
def hexDigit (n : Nat) : Char :=
  if n < 10 then Char.ofNat (48 + n) else Char.ofNat (87 + n)

/-- Eight-character lowercase hex rendering of a 32-bit word. -/
def hex8 (x : Nat) : List Char :=
  (List.range 8).map fun i => hexDigit (x / 16 ^ (7 - i) % 16)

/-- Models `hashlib.sha256(m).hexdigest()`: 64 lowercase hex characters. -/
def sha256hex (m : List Nat) : String :=
  String.mk ((sha256words m).map hex8).flatten

/-- UTF-8 encoding of one code point. -/
def utf8Char (n : Nat) : List Nat :=
  if n < 128 then [n]
  else if n < 2048 then [192 + n / 64, 128 + n % 64]
  else if n < 65536 then [224 + n / 4096, 128 + n / 64 % 64, 128 + n % 64]
  else [240 + n / 262144, 128 + n / 4096 % 64, 128 + n / 64 % 64, 128 + n % 64]

/-- Models `s.encode("utf-8")` as a byte list. -/
def utf8 (s : String) : List Nat :=
  (s.data.map fun c => utf8Char c.toNat).flatten

/-- Models `hashlib.sha256(s.encode("utf-8")).hexdigest()`. -/
def sha256hexStr (s : String) : String := sha256hex (utf8 s)

/-! ## Python string primitives

`str.strip` / `str.lower` / `str.upper`, implemented structurally over the
character list (ASCII case folding; the engine only case-folds ASCII enum
values and event-type tokens). -/

/-- ASCII whitespace stripped by `str.strip()`. -/
def isPySpace (c : Char) : Bool :=
  c == ' ' || c == '\t' || c == '\n' || c == '\r' || c.toNat == 11 || c.toNat == 12

/-- Python `s.strip()`. -/
def pyStrip (s : String) : String :=
  String.mk (((s.data.dropWhile isPySpace).reverse.dropWhile isPySpace).reverse)

/-- ASCII lowercase folding of one character. -/
def pyLowerChar (c : Char) : Char :=
  if c.toNat ≥ 65 ∧ c.toNat ≤ 90 then Char.ofNat (c.toNat + 32) else c

/-- Python `s.lower()` (ASCII). -/
def pyLower (s : String) : String := String.mk (s.data.map pyLowerChar)

/-- ASCII uppercase folding of one character. -/
def pyUpperChar (c : Char) : Char :=
  if c.toNat ≥ 97 ∧ c.toNat ≤ 122 then Char.ofNat (c.toNat - 32) else c

/-- Python `s.upper()` (ASCII). -/
def pyUpper (s : String) : String := String.mk (s.data.map pyUpperChar)


/-! ## Python values and JSON canonicalization

Telemetry payloads are Python dicts mapping string keys to scalars or one
level of nested dict (the spec's "string → scalar/sub-map" feature map).
They are modelled as association lists in insertion order, with unique keys
corresponding to dict key uniqueness. -/

/-- Scalar payload values. -/
inductive Scalar where
  | str (s : String)
  | int (n : Int)
  | bool (b : Bool)
  | null
deriving DecidableEq, Repr

/-- A payload value: a scalar or a nested sub-map of scalars. -/
inductive Val where
  | sc (s : Scalar)
  | sub (m : List (String × Scalar))
deriving DecidableEq, Repr

/-- A telemetry payload dict, in insertion order. -/
abbrev Payload := List (String × Val)

/-- Python truthiness of a scalar. -/
def Scalar.truthy : Scalar → Bool
  | .str s => !(s == "")
  | .int n => !(n == 0)
  | .bool b => b
  | .null => false

/-- Python truthiness of a payload value. -/
def Val.truthy : Val → Bool
  | .sc s => s.truthy
  | .sub m => !m.isEmpty

/-- Models `str(v)` for a scalar. -/
def Scalar.pyStr : Scalar → String
  | .str s => s
  | .int n => toString n
  | .bool b => if b then "True" else "False"
  | .null => "None"

/-- Models `str(v)`. For a nested dict this is the Python `repr` rendering; string
escaping inside the repr is elided (no property depends on it). -/
def Val.pyStr : Val → String
  | .sc s => s.pyStr
  | .sub m =>
      "\x7b" ++
        String.intercalate ", "
          (m.map fun kv =>
            "\x27" ++ kv.1 ++ "\x27: " ++
              (match kv.2 with
               | .str s => "\x27" ++ s ++ "\x27"
               | v => v.pyStr)) ++
      "\x7d"

/-- Raw association-list lookup, first match (dict keys are unique). -/
def lookupVal (k : String) (p : Payload) : Option Val :=
  (p.find? fun kv => kv.1 == k).map (·.2)

/-- Models `payload.get(k)`: `None` both when the key is absent and when it is
bound to JSON `null`, since Python's `dict.get` returns `None` for a
missing key and the stored value for a `null` binding. -/
def pyGet (k : String) (p : Payload) : Option Val :=
  match lookupVal k p with
  | some (.sc .null) => none
  | v => v

/-- Python `a or b` on optional values: the left operand if truthy,
otherwise the right operand. -/
def pyOr (a b : Option Val) : Option Val :=
  match a with
  | some v => if v.truthy then some v else b
  | none => b

/-- Digits-only decimal reading used by `int(str)`. -/
def digitsToNat (cs : List Char) : Option Nat :=
  if cs ≠ [] ∧ cs.all Char.isDigit then
    some (cs.foldl (fun a c => 10 * a + (c.toNat - 48)) 0)
  else none

/-- Python `int(s)` on a string: optional surrounding whitespace, optional
sign, decimal digits; `none` models `ValueError`. (Digit-group underscores
are not modelled; no embedded call site feeds them.) -/
def pyIntOfString (s : String) : Option Int :=
  match (pyStrip s).data with
  | '-' :: rest => (digitsToNat rest).map fun n => -(n : Int)
  | '+' :: rest => (digitsToNat rest).map fun n => (n : Int)
  | ds => (digitsToNat ds).map fun n => (n : Int)

/-- Integer part of a decimal float literal, for `int(float(s))`:
truncation toward zero. -/
def floatTruncNat (cs : List Char) : Option Nat :=
  let intPart := cs.takeWhile (· ≠ '.')
  match cs.dropWhile (· ≠ '.') with
  | [] => digitsToNat intPart
  | _ :: frac =>
      if (intPart ≠ [] ∨ frac ≠ []) ∧ intPart.all Char.isDigit ∧ frac.all Char.isDigit then
        some (intPart.foldl (fun a c => 10 * a + (c.toNat - 48)) 0)
      else none

/-- Python `int(float(s))`: decimal literal parse then truncation toward
zero; `none` models `ValueError`. (Exponent notation is not modelled; no
embedded call site feeds it.) -/
def pyFloatIntOfString (s : String) : Option Int :=
  match s.data with
  | '-' :: rest => (floatTruncNat rest).map fun n => -(n : Int)
  | '+' :: rest => (floatTruncNat rest).map fun n => (n : Int)
  | ds => (floatTruncNat ds).map fun n => (n : Int)

/-! ### Canonical JSON (`json.dumps(obj, sort_keys=True, separators=(",", ":"), ensure_ascii=False)`) -/

/-- JSON string escaping as performed by `json.dumps` with
`ensure_ascii=False`. -/
def jsonEscapeChar (c : Char) : List Char :=
  if c = '"' then ['\\', '"']
  else if c = '\\' then ['\\', '\\']
  else if c = '\n' then ['\\', 'n']
  else if c = '\t' then ['\\', 't']
  else if c = '\r' then ['\\', 'r']
  else if c.toNat = 8 then ['\\', 'b']
  else if c.toNat = 12 then ['\\', 'f']
  else if c.toNat < 32 then ['\\', 'u', '0', '0', hexDigit (c.toNat / 16), hexDigit (c.toNat % 16)]
  else [c]

/-- A JSON string literal with escaping. -/
def jsonStr (s : String) : String :=
  "\"" ++ String.mk (s.data.map jsonEscapeChar).flatten ++ "\""

/-- JSON rendering of a scalar. -/
def Scalar.toJson : Scalar → String
  | .str s => jsonStr s
  | .int n => toString n
  | .bool b => if b then "true" else "false"
  | .null => "null"

/-- Key ordering on association-list entries, used to model `sort_keys=True`. -/
def keyLe {α : Type} (a b : String × α) : Prop := a.1 ≤ b.1

instance {α : Type} : DecidableRel (@keyLe α) :=
  fun a b => inferInstanceAs (Decidable (a.1 ≤ b.1))

instance {α : Type} : IsTotal (String × α) keyLe := ⟨fun a b => le_total a.1 b.1⟩

instance {α : Type} : IsTrans (String × α) keyLe := ⟨fun _ _ _ hab hbc => le_trans hab hbc⟩

/-- Sort association-list entries by key, modelling `sort_keys=True`
(the sorted order is unique because dict keys are distinct). -/
def sortPairs {α : Type} (l : List (String × α)) : List (String × α) :=
  l.insertionSort keyLe

/-- Compact JSON object rendering of already-sorted entries. -/
def renderObj (entries : List (String × String)) : String :=
  "\x7b" ++ String.intercalate "," (entries.map fun kv => jsonStr kv.1 ++ ":" ++ kv.2) ++ "\x7d"

/-- JSON rendering of a payload value; nested dict keys are sorted too. -/
def Val.toJson : Val → String
  | .sc s => s.toJson
  | .sub m => renderObj ((sortPairs m).map fun kv => (kv.1, kv.2.toJson))

/-- Models `_canonical_json` from `src/api/defend.py` applied to a payload dict:
key-sorted, `(",", ":")` separators, `ensure_ascii=False`. -/
def canonical_json (p : Payload) : String :=
  renderObj ((sortPairs p).map fun kv => (kv.1, kv.2.toJson))

/-! ## `src/api/schemas.py`: enums and the telemetry envelope

`TelemetryInput` requires `source`, `tenant_id`, `timestamp` and `payload`;
`persona`/`classification` are optional typed enums. It has no `event_type`
or `event` attribute (extra inbound keys are ignored by pydantic), so the
`getattr(..., None)` reads of those names in the engine yield `None` and are
folded away here. The timestamp is modelled by its canonical
`_iso(_to_utc(...))` rendering, a UTC ISO-8601 string: no embedded property
depends on calendar arithmetic, only on the rendered string. -/

/-- Operator persona (`Persona` enum). -/
inductive Persona where
  | GUARDIAN
  | SENTINEL
deriving DecidableEq, Repr

/-- The underlying string value of a persona. -/
def Persona.value : Persona → String
  | .GUARDIAN => "guardian"
  | .SENTINEL => "sentinel"

/-- Data classification ring (`ClassificationRing` enum). -/
inductive ClassificationRing where
  | PUBLIC
  | INTERNAL
  | CONFIDENTIAL
  | SECRET
deriving DecidableEq, Repr

/-- The underlying string value of a classification ring. -/
def ClassificationRing.value : ClassificationRing → String
  | .PUBLIC => "PUBLIC"
  | .INTERNAL => "INTERNAL"
  | .CONFIDENTIAL => "CONFIDENTIAL"
  | .SECRET => "SECRET"

/-- The inbound telemetry envelope (`TelemetryInput`). -/
structure TelemetryInput where
  tenant_id : String
  source : String
  timestamp : String
  payload : Payload
  persona : Option Persona
  classification : Option ClassificationRing
deriving DecidableEq, Repr

/-! ## `src/api/defend.py`: normalization, event identity, evaluator -/

/-- Models `_coerce_event_type`: the envelope has no `event_type`/`event`
attribute, so the value comes from `payload["event_type"]`, defaulting to
`"unknown"` when absent or falsy after stripping. A non-string truthy
value under that key raises `AttributeError` on `.strip()` in the source
and lies outside the modelled domain; the embedding totalizes it through
`str()`. -/
def coerce_event_type (req : TelemetryInput) : String :=
  let et :=
    match pyGet "event_type" req.payload with
    | some v => if v.truthy then v.pyStr else ""
    | none => ""
  let s := pyStrip et
  if s = "" then "unknown" else s

/-- Models `_coerce_event_payload`: `event` is never present on the schema, so
this is the payload dict itself (a shallow copy in the source). -/
def coerce_event_payload (req : TelemetryInput) : Payload := req.payload

/-- Models `_normalize_ip` from `src/api/defend.py`. -/
def normalize_ip (p : Payload) : Option String :=
  match pyOr (pyOr (pyOr (pyOr (pyGet "src_ip" p) (pyGet "source_ip" p))
      (pyGet "source_ip_addr" p)) (pyGet "ip" p)) (pyGet "remote_ip" p) with
  | none => none
  | some v => let s := pyStrip v.pyStr; if s = "" then none else some s

/-- Models `int(raw)` with the surrounding `try/except` returning 0 on failure. -/
def intOr0 : Val → Int
  | .sc (.int n) => n
  | .sc (.bool b) => if b then 1 else 0
  | .sc (.str s) => (pyIntOfString s).getD 0
  | _ => 0

/-- Models `_normalize_failed_auths` from `src/api/defend.py`: alias chain with
Python `or` (a falsy value falls through to the next alias), final
fallback literal `0`, then `int(...)` with 0 on parse failure. -/
def normalize_failed_auths (p : Payload) : Int :=
  match pyOr (pyOr (pyOr (pyOr (pyGet "failed_auths" p) (pyGet "fail_count" p))
      (pyGet "failures" p)) (pyGet "attempts" p)) (pyGet "failed_attempts" p) with
  | some v => if v.truthy then intOr0 v else 0
  | none => 0

/-- Models `_event_id` from `src/api/defend.py`: SHA-256 over
`tenant|source|iso_timestamp|event_type|canonical_json(payload)`. -/
def event_id (req : TelemetryInput) : String :=
  sha256hexStr (req.tenant_id ++ "|" ++ req.source ++ "|" ++ req.timestamp ++ "|" ++
    coerce_event_type req ++ "|" ++ canonical_json (coerce_event_payload req))

/-- A proposed or gated mitigation (`MitigationAction`). The `meta` field
is never populated by the engine and is omitted. -/
structure MitigationAction where
  action : String
  target : Option String
  reason : String
  confidence : ℚ
deriving DecidableEq, Repr, Inhabited

/-- Models `RULE_SCORES.get(r, 0)`: rule weights of the MVP scoring engine. -/
def RULE_SCORES (r : String) : Int :=
  if r = "rule:ssh_bruteforce" then 90
  else if r = "rule:default_allow" then 0
  else 0

/-- Models `_threat_from_score` from `src/api/defend.py`. -/
def threat_from_score (score : Int) : String :=
  if 80 ≤ score then "high"
  else if 50 ≤ score then "medium"
  else if 20 ≤ score then "low"
  else "none"

/-- Result tuple of `evaluate` in `src/api/defend.py`. -/
structure EvalResult where
  threat_level : String
  rules_triggered : List String
  mitigations : List MitigationAction
  anomaly_score : ℚ
  score : Int
deriving DecidableEq, Repr

/-- Models `evaluate` from `src/api/defend.py` (the MVP rules engine behind the
`/defend` endpoint). -/
def evaluate (req : TelemetryInput) : EvalResult :=
  let et := coerce_event_type req
  let body := coerce_event_payload req
  let failed_auths := normalize_failed_auths body
  let src_ip := normalize_ip body
  let fires := (et = "auth" ∨ et = "auth.bruteforce" ∨ et = "auth_attempt")
      ∧ 5 ≤ failed_auths ∧ src_ip.isSome
  let rules_triggered := if fires then ["rule:ssh_bruteforce"] else ["rule:default_allow"]
  let mitigations : List MitigationAction :=
    if fires then
      [{ action := "block_ip", target := src_ip,
         reason := toString failed_auths ++ " failed auth attempts detected",
         confidence := 0.92 }]
    else []
  let anomaly_score : ℚ := if fires then 0.8 else 0.1
  let score := (rules_triggered.map RULE_SCORES).sum
  { threat_level := threat_from_score score, rules_triggered := rules_triggered,
    mitigations := mitigations, anomaly_score := anomaly_score, score := score }

/-! ## `src/api/defend.py`: doctrine gate -/

/-- Doctrine/TIED block attached to a decision
(`TieD` from `src/api/schemas_doctrine.py`). -/
structure TieD where
  roe_applied : Bool := false
  disruption_limited : Bool := false
  ao_required : Bool := false
  persona : Option String := none
  classification : Option String := none
  service_impact : ℚ := 0
  user_impact : ℚ := 0
  gating_decision : String := "allow"
  policy_version : String := "doctrine-v1"
deriving DecidableEq, Repr

/-- Models `float(min(1.0, max(0.0, v)))`. -/
def clamp01 (v : ℚ) : ℚ := min 1 (max 0 v)

/-- Models `(persona or "").strip().lower() or None` applied to the typed persona
the endpoint passes (`req.persona`, a `Persona` enum or `None`). -/
def persona_norm (p : Option Persona) : Option String :=
  match p with
  | none => none
  | some pp => let s := pyLower (pyStrip pp.value); if s = "" then none else some s

/-- Models `(classification or "").strip().upper() or None` applied to the typed
classification the endpoint passes. -/
def classification_norm (c : Option ClassificationRing) : Option String :=
  match c with
  | none => none
  | some cc => let s := pyUpper (pyStrip cc.value); if s = "" then none else some s

/-- Models `_apply_doctrine` from `src/api/defend.py`: under guardian + SECRET it
flags `roe_applied`/`ao_required`, keeps only the first `block_ip`
mitigation (moved to the front) when more than one is proposed, and derives
the gating decision; otherwise it passes the mitigations through. -/
def apply_doctrine (persona : Option Persona) (classification : Option ClassificationRing)
    (mitigations : List MitigationAction) : List MitigationAction × TieD :=
  let persona_v := persona_norm persona
  let class_v := classification_norm classification
  let base_impact : ℚ := if mitigations.any (fun m => m.action == "block_ip") then 0.35 else 0.0
  let base_user_impact : ℚ := if mitigations.any (fun m => m.action == "block_ip") then 0.20 else 0.0
  if persona_v = some "guardian" ∧ class_v = some "SECRET" then
    let block_ips := mitigations.filter fun m => m.action == "block_ip"
    let disruption_limited := 1 < block_ips.length
    let out :=
      if 1 < block_ips.length then
        block_ips.headI :: mitigations.filter (fun m => m.action != "block_ip")
      else mitigations
    let service_impact := if disruption_limited then max 0 (base_impact - 0.10) else base_impact
    let user_impact := if disruption_limited then max 0 (base_user_impact - 0.05) else base_user_impact
    let gating_decision :=
      if out.any (fun m => m.action == "block_ip") then "require_approval" else "allow"
    (out,
     { roe_applied := true, disruption_limited := disruption_limited, ao_required := true,
       persona := persona_v, classification := class_v,
       service_impact := clamp01 service_impact, user_impact := clamp01 user_impact,
       gating_decision := gating_decision })
  else
    (mitigations,
     { roe_applied := false, disruption_limited := false, ao_required := false,
       persona := persona_v, classification := class_v,
       service_impact := clamp01 base_impact, user_impact := clamp01 base_user_impact,
       gating_decision := "allow" })

/-! ## `src/api/defend.py`: response assembly, chain hash, persistence -/

/-- Models `DecisionExplain` from `src/api/defend.py` (`llm_note` is never set and
is omitted). -/
structure DecisionExplain where
  summary : String
  rules_triggered : List String
  anomaly_score : ℚ
  tie_d : TieD
  score : Int
  roe_applied : Bool
  disruption_limited : Bool
  ao_required : Bool
  persona : Option String
  classification : Option String
deriving DecidableEq, Repr

/-- Models `DefendResponse` from `src/api/defend.py`. -/
structure DefendResponse where
  explanation_brief : String
  threat_level : String
  mitigations : List MitigationAction
  explain : DecisionExplain
  ai_adversarial_score : ℚ
  pq_fallback : Bool
  clock_drift_ms : Int
  event_id : String
deriving DecidableEq, Repr

/-- The canonical hash payload of `_hash_payload`. -/
structure HashPayload where
  event_id : String
  created_at : String
  tenant_id : String
  source : String
  event_type : String
  threat_level : String
  rules_triggered : List String
deriving DecidableEq, Repr

/-- JSON array of strings. -/
def jsonStrList (xs : List String) : String :=
  "[" ++ String.intercalate "," (xs.map jsonStr) ++ "]"

/-- Models `json.dumps(payload, sort_keys=True, separators=(",", ":"),
ensure_ascii=False)` for the fixed seven-key hash payload; the keys appear
in their sorted order. -/
def hash_payload_json (p : HashPayload) : String :=
  "\x7b" ++
    "\"created_at\":" ++ jsonStr p.created_at ++
    ",\"event_id\":" ++ jsonStr p.event_id ++
    ",\"event_type\":" ++ jsonStr p.event_type ++
    ",\"rules_triggered\":" ++ jsonStrList p.rules_triggered ++
    ",\"source\":" ++ jsonStr p.source ++
    ",\"tenant_id\":" ++ jsonStr p.tenant_id ++
    ",\"threat_level\":" ++ jsonStr p.threat_level ++
  "\x7d"

/-- Models `_compute_chain_hash` from `src/api/defend.py`:
`sha256(f"{prev_hash or ''}:{blob}")` over the canonical payload JSON. -/
def compute_chain_hash (prev_hash : Option String) (payload : HashPayload) : String :=
  sha256hexStr (prev_hash.getD "" ++ ":" ++ hash_payload_json payload)

/-- A persisted decision row (`DecisionRecord` from `src/api/db_models.py`,
restricted to the columns the embedded properties read; `explain_score` is
the `explain.score` field stored inside `response_json`). -/
structure DecisionRecord where
  tenant_id : String
  source : String
  event_id : String
  event_type : String
  threat_level : String
  rules_triggered : List String
  created_at : String
  explain_score : Option Int
  prev_hash : Option String
  chain_hash : String
deriving DecidableEq, Repr

/-- The chain link step of `_persist_decision_best_effort` (lines 522-537
of `src/api/defend.py`): read the globally most recent record, link
`prev_hash` to its `chain_hash` (`None` when the table is empty), and
compute this record's `chain_hash`. -/
def append_decision (db : List DecisionRecord)
    (eid event_type created_at tenant_id source threat_level : String)
    (rules : List String) (explain_score : Option Int) : DecisionRecord :=
  let prev_hash := db.getLast?.map DecisionRecord.chain_hash
  { tenant_id := tenant_id, source := source, event_id := eid, event_type := event_type,
    threat_level := threat_level, rules_triggered := rules, created_at := created_at,
    explain_score := explain_score, prev_hash := prev_hash,
    chain_hash := compute_chain_hash prev_hash
      { event_id := eid, created_at := created_at, tenant_id := tenant_id, source := source,
        event_type := event_type, threat_level := threat_level, rules_triggered := rules } }

/-- Behaviour of the storage collaborator on `db.add(record); db.commit()`:
success, duplicate-key `IntegrityError`, or any other exception. -/
inductive InsertOutcome where
  | ok
  | duplicateKey
  | failure
deriving DecidableEq, Repr

/-- What became of the persistence attempt (side-channel status only; the
source logs and swallows, it never re-raises). -/
inductive PersistStatus where
  | persisted
  | duplicateNoop
  | failed
deriving DecidableEq, Repr

/-- Models `_persist_decision_best_effort` from `src/api/defend.py`: builds the
chained record, then commits; an `IntegrityError` (duplicate `event_id`)
rolls back and returns normally, any other exception rolls back and is
logged. Nothing propagates to the caller. -/
def persist_decision_best_effort (db : List DecisionRecord) (outcome : InsertOutcome)
    (req : TelemetryInput) (eid event_type : String) (decision : DefendResponse)
    (rules : List String) (score : Int) : List DecisionRecord × PersistStatus :=
  let record := append_decision db eid event_type req.timestamp req.tenant_id req.source
    decision.threat_level rules (some score)
  match outcome with
  | .ok => (db ++ [record], .persisted)
  | .duplicateKey => (db, .duplicateNoop)
  | .failure => (db, .failed)

/-- The pure response computation of the `defend` endpoint, before the
persistence step; `clock_drift_ms` is the wall-clock-derived value computed
by `_clock_drift_ms`, passed in as an input. -/
def defend_response (req : TelemetryInput) (clock_drift_ms : Int) : DefendResponse :=
  let event_type := coerce_event_type req
  let ev := evaluate req
  let gated := apply_doctrine req.persona req.classification ev.mitigations
  let summary := event_type ++ ": " ++ ev.threat_level ++ " (" ++ toString ev.score ++ ")"
  { explanation_brief := summary,
    threat_level := ev.threat_level,
    mitigations := gated.1,
    explain :=
      { summary := summary, rules_triggered := ev.rules_triggered,
        anomaly_score := ev.anomaly_score, tie_d := gated.2, score := ev.score,
        roe_applied := gated.2.roe_applied, disruption_limited := gated.2.disruption_limited,
        ao_required := gated.2.ao_required, persona := gated.2.persona,
        classification := gated.2.classification },
    ai_adversarial_score := 0, pq_fallback := false,
    clock_drift_ms := clock_drift_ms, event_id := event_id req }

/-- The `defend` endpoint: compute the decision, then persist best-effort;
the response is returned whatever the storage outcome. -/
def defend (req : TelemetryInput) (clock_drift_ms : Int) (db : List DecisionRecord)
    (outcome : InsertOutcome) : DefendResponse × List DecisionRecord × PersistStatus :=
  let resp := defend_response req clock_drift_ms
  let persisted := persist_decision_best_effort db outcome req (event_id req)
    (coerce_event_type req) resp resp.explain.rules_triggered resp.explain.score
  (resp, persisted)

/-! ## `src/engine/rules.py`: the rules engine -/

/-- Models `_norm_str(v, default)`: `str(v).strip()` with a default for `None` or
empty results. -/
def norm_str (v : Option Val) (dflt : String := "unknown") : String :=
  match v with
  | none => dflt
  | some x => let s := pyStrip x.pyStr; if s = "" then dflt else s

/-- Models `_coerce_int` from `src/engine/rules.py`: bool → 0/1, int → itself,
string → `int(float(s))`, anything else (or parse failure) → 0. -/
def coerce_int (v : Option Val) : Int :=
  match v with
  | none => 0
  | some (.sc (.bool b)) => if b then 1 else 0
  | some (.sc (.int n)) => n
  | some (.sc (.str s)) =>
      let t := pyStrip s
      if t = "" then 0 else (pyFloatIntOfString t).getD 0
  | some (.sc .null) => 0
  | some (.sub _) => 0

/-- Models `_normalize_event_type`: lowercase, then fold bruteforce synonyms. -/
def normalize_event_type (v : Option Val) : String :=
  let s := pyLower (norm_str v "unknown")
  if s = "auth.brute_force" ∨ s = "auth.bruteforce" ∨ s = "ssh.bruteforce"
      ∨ s = "bruteforce" ∨ s = "brute_force" then
    "auth.bruteforce"
  else s

/-- The result of `_extract_payload_and_meta`. -/
structure Extracted where
  payload : Payload
  event_type : String
  tenant_id : String
  source : String
deriving DecidableEq, Repr

/-- Models `_extract_payload_and_meta` on a `TelemetryInput` object: the schema
has no `event_type`/`type`/`tenant` attribute, so the initial
`event_type` is `"unknown"` and the in-payload fallback
(`payload.get("event_type") or payload.get("type")`) always applies;
`tenant_id`/`source` are the (non-empty-or-unknown) schema fields. -/
def extract_payload_and_meta (t : TelemetryInput) : Extracted :=
  let payload := t.payload
  let etv := pyOr (pyGet "event_type" payload) (pyGet "type" payload)
  let event_type :=
    match etv with
    | some v => if v.truthy then normalize_event_type (some v)
                else normalize_event_type (some (.sc (.str "unknown")))
    | none => normalize_event_type (some (.sc (.str "unknown")))
  { payload := payload, event_type := event_type,
    tenant_id := norm_str (some (.sc (.str t.tenant_id))),
    source := norm_str (some (.sc (.str t.source))) }

/-- Contiguous-sublist test on character lists. -/
def charsInfix (needle : List Char) : List Char → Bool
  | [] => needle.isEmpty
  | c :: t => needle.isPrefixOf (c :: t) || charsInfix needle t

/-- Models `needle in haystack` on Python strings. -/
def strContains (haystack needle : String) : Bool :=
  charsInfix needle.data haystack.data

/-- The `source_ip` alias chain of `evaluate_rules`, ending in
`or "unknown"`; the result is passed through `str(...)`. -/
def rules_source_ip (payload : Payload) : String :=
  match pyOr (pyOr (pyOr (pyGet "src_ip" payload) (pyGet "source_ip" payload))
      (pyGet "ip" payload)) (pyGet "client_ip" payload) with
  | some v => if v.truthy then v.pyStr else "unknown"
  | none => "unknown"

/-- The `failed_auths` alias chain of `evaluate_rules`, ending in `or 0`,
then `_coerce_int`. -/
def rules_failed_auths (payload : Payload) : Int :=
  match pyOr (pyOr (pyOr (pyOr (pyOr (pyOr (pyGet "failed_auths" payload)
      (pyGet "failed_attempts" payload)) (pyGet "attempts" payload))
      (pyGet "count" payload)) (pyGet "failures" payload))
      (pyGet "num_failures" payload)) (pyGet "failed_logins" payload) with
  | some v => if v.truthy then coerce_int (some v) else 0
  | none => 0

/-- Result tuple of `evaluate_rules`. -/
structure RulesResult where
  threat_level : String
  mitigations : List MitigationAction
  rules_triggered : List String
  anomaly_score : ℚ
  ai_adv_score : ℚ
deriving DecidableEq, Repr

/-- Models `evaluate_rules` from `src/engine/rules.py`. -/
def evaluate_rules (t : TelemetryInput) : RulesResult :=
  let ex := extract_payload_and_meta t
  let source_ip := rules_source_ip ex.payload
  let failed_auths := rules_failed_auths ex.payload
  let et := pyLower ex.event_type
  let bruteLabel := strContains et "bruteforce" || strContains et "brute_force"
  let is_bruteforce := bruteLabel || decide (10 ≤ failed_auths)
  let diag := bruteLabel && decide (failed_auths = 0)
  let rules1 : List String := if diag then ["rule:missing_failed_count"] else []
  let threat1 := if diag then "medium" else "low"
  let anomaly1 : ℚ := if diag then max 0 0.4 else 0
  let fires := is_bruteforce && decide (10 ≤ failed_auths)
  let rules2 := rules1 ++ (if fires then ["rule:ssh_bruteforce"] else [])
  let threat2 := if fires then "high" else threat1
  let mitigations : List MitigationAction :=
    if fires then
      [{ action := "block", target := some source_ip,
         reason := toString failed_auths ++ " failed auth attempts detected",
         confidence := 0.92 }]
    else []
  let anomaly2 := if fires then max anomaly1 0.8 else anomaly1
  let llm := ex.event_type == "suspicious_llm_usage"
  let rules3 := rules2 ++ (if llm then ["rule:ai-assisted-attack"] else [])
  let ai := if llm then max 0 0.7 else 0
  let threat3 := if llm && (threat2 == "low") then "medium" else threat2
  { threat_level := threat3, mitigations := mitigations, rules_triggered := rules3,
    anomaly_score := anomaly2, ai_adv_score := ai }

/-! ## `src/engine/tied.py`: the TIED impact estimator -/

/-- Models `TIEDEstimate` from `src/api/schemas.py` (the free-text `notes` field
is omitted; no property reads it). -/
structure TIEDEstimate where
  service_impact : ℚ
  user_impact : ℚ
  gating_decision : String
deriving DecidableEq, Repr

/-- Models `_BASE_SERVICE_IMPACT.get(lvl, 0.3)`. -/
def base_service_impact (lvl : String) : ℚ :=
  if lvl = "low" then 0.2 else if lvl = "medium" then 0.5 else if lvl = "high" then 0.8 else 0.3

/-- Models `_BASE_USER_IMPACT.get(lvl, 0.2)`. -/
def base_user_impact (lvl : String) : ℚ :=
  if lvl = "low" then 0.1 else if lvl = "medium" then 0.4 else if lvl = "high" then 0.7 else 0.2

/-- Models `_RING_MULTIPLIER.get(key, 1.0)`. -/
def ring_multiplier (key : String) : ℚ :=
  if key = "unclass" ∨ key = "unclassified" then 0.8
  else if key = "cui" then 1.0
  else if key = "secret" then 1.2
  else 1.0

/-- Models `_clamp` from `src/engine/tied.py`. -/
def tiedClamp (v : ℚ) : ℚ := max 0 (min 1 v)

/-- Models `estimate_impact` from `src/engine/tied.py`. -/
def estimate_impact (threat_level : String) (classification : ClassificationRing)
    (persona : Persona) : TIEDEstimate :=
  let norm_level := pyLower threat_level
  let base_service := base_service_impact norm_level
  let base_user := base_user_impact norm_level
  let m := ring_multiplier (pyLower classification.value)
  let s0 := tiedClamp (base_service * m)
  let u0 := tiedClamp (base_user * m)
  let s := if persona = .GUARDIAN then tiedClamp (s0 * 1.1) else tiedClamp (s0 * 0.9)
  let u := if persona = .GUARDIAN then tiedClamp (u0 * 1.1) else tiedClamp (u0 * 0.9)
  let gate :=
    if s < 0.4 ∧ u < 0.4 then "allow"
    else if s < 0.7 ∧ u < 0.7 then "require_approval"
    else "reject"
  { service_impact := s, user_impact := u, gating_decision := gate }

/-! ## `src/api/decision_diff.py`: the decision diff engine -/

/-- A decision snapshot as produced by `snapshot_from_record` /
`snapshot_from_current`. -/
structure Snapshot where
  threat_level : String
  rules_triggered : List String
  score : Option Int
deriving DecidableEq, Repr, Inhabited

/-- One entry of the `changes` list of a diff. -/
inductive DiffChange where
  | score (fro til : Option Int) (delta : Option Int)
  | threat_level (fro til : String)
  | rulesAdded (values : List String)
  | rulesRemoved (values : List String)
deriving DecidableEq, Repr

/-- The diff object returned by `compute_decision_diff`. -/
structure DecisionDiff where
  changes : List DiffChange
  prev : Snapshot
  curr : Snapshot
  summary : String
deriving DecidableEq, Repr, Inhabited

/-- Models `snapshot_from_record`: threat level, rules and the `explain.score`
stored inside `response_json`. -/
def snapshot_from_record (r : DecisionRecord) : Snapshot :=
  { threat_level := r.threat_level, rules_triggered := r.rules_triggered,
    score := r.explain_score }

/-- Models `snapshot_from_current`. -/
def snapshot_from_current (threat_level : String) (rules : List String) (score : Int) :
    Snapshot :=
  { threat_level := threat_level, rules_triggered := rules, score := some score }

/-- Models `sorted(...)` on a list of strings. -/
def sortedStrings (l : List String) : List String :=
  l.insertionSort (· ≤ ·)

/-- Models `sorted(set(a) - set(b))`. -/
def setDiffSorted (a b : List String) : List String :=
  sortedStrings ((a.filter fun x => !(b.contains x)).dedup)

/-- Models `compute_decision_diff` from `src/api/decision_diff.py` (the code
after its first `return` is unreachable and not modelled). A prior
snapshot, when present, always has its three keys, so the `if not prev`
guard is exactly the `none` test. -/
def compute_decision_diff (prev : Option Snapshot) (curr : Snapshot) : Option DecisionDiff :=
  match prev with
  | none => none
  | some p =>
    let delta : Option Int :=
      match p.score, curr.score with
      | some a, some b => some (b - a)
      | _, _ => none
    let scoreChanges : List DiffChange :=
      if p.score ≠ curr.score ∨ (delta ≠ some 0 ∧ delta ≠ none) then
        [.score p.score curr.score delta]
      else []
    let threatChanges : List DiffChange :=
      if p.threat_level ≠ curr.threat_level then
        [.threat_level p.threat_level curr.threat_level]
      else []
    let added := setDiffSorted curr.rules_triggered p.rules_triggered
    let removed := setDiffSorted p.rules_triggered curr.rules_triggered
    let addedChanges : List DiffChange := if added ≠ [] then [.rulesAdded added] else []
    let removedChanges : List DiffChange := if removed ≠ [] then [.rulesRemoved removed] else []
    let changes := scoreChanges ++ threatChanges ++ addedChanges ++ removedChanges
    let summary :=
      if changes = [] then "No material change vs previous decision."
      else
        let bits :=
          (if p.threat_level ≠ curr.threat_level then
            ["threat " ++ p.threat_level ++ "→" ++ curr.threat_level] else [])
          ++ (if added ≠ [] then ["+" ++ toString added.length ++ " rule(s)"] else [])
          ++ (if removed ≠ [] then ["-" ++ toString removed.length ++ " rule(s)"] else [])
          ++ (match delta with
              | some d => if d ≠ 0 then ["score Δ" ++ toString d] else []
              | none => [])
        if bits = [] then "Decision changed." else String.intercalate ", " bits
    some { changes := changes, prev := p, curr := curr, summary := summary }

/-- The fingerprint lookup of `_persist_decision_best_effort`: the most
recent `DecisionRecord` with the same (tenant_id, source, event_type),
`db` being in insertion (id) order. -/
def fingerprint_prev (db : List DecisionRecord) (tenant_id source event_type : String) :
    Option DecisionRecord :=
  (db.filter fun r =>
    r.tenant_id == tenant_id && r.source == source && r.event_type == event_type).getLast?

/-- Diff computation as wired in `_persist_decision_best_effort`:
previous snapshot from the fingerprint's last record, else `None`. -/
def diff_for_request (db : List DecisionRecord) (tenant_id source event_type : String)
    (curr : Snapshot) : Option DecisionDiff :=
  compute_decision_diff ((fingerprint_prev db tenant_id source event_type).map
    snapshot_from_record) curr

/-! ## Spec-side definitions

These are written from the specification's wording, to be compared with the
source-derived definitions above. -/

/-- The spec's threat-level step function: score ≥ 80 → high, ≥ 50 →
medium, ≥ 20 → low, else none. -/
def spec_threat_step (score : Int) : String :=
  if 80 ≤ score then "high"
  else if 50 ≤ score then "medium"
  else if 20 ≤ score then "low"
  else "none"

/-- Severity order on threat levels: none < low < medium < high. -/
def threatRank (lvl : String) : Nat :=
  if lvl = "none" then 0
  else if lvl = "low" then 1
  else if lvl = "medium" then 2
  else if lvl = "high" then 3
  else 4

/-- The spec's two-cut-point gating band: both impacts must independently
clear a band. -/
def spec_gating (s u : ℚ) : String :=
  if s < 0.4 ∧ u < 0.4 then "allow"
  else if s < 0.7 ∧ u < 0.7 then "require_approval"
  else "reject"

/-! ## Helper lemmas -/

theorem tiedClamp_nonneg (v : ℚ) : 0 ≤ tiedClamp v := le_max_left _ _

theorem tiedClamp_le_one (v : ℚ) : tiedClamp v ≤ 1 :=
  max_le zero_le_one (min_le_left _ _)

theorem spec_threat_step_mono {s t : Int} (h : s ≤ t) :
    threatRank (spec_threat_step s) ≤ threatRank (spec_threat_step t) := by
  unfold spec_threat_step
  by_cases h80s : 80 ≤ s <;> by_cases h80t : 80 ≤ t <;>
    by_cases h50s : 50 ≤ s <;> by_cases h50t : 50 ≤ t <;>
    by_cases h20s : 20 ≤ s <;> by_cases h20t : 20 ≤ t <;>
    simp only [h80s, h80t, h50s, h50t, h20s, h20t, if_true, if_false,
      ite_true, ite_false] <;>
    first
      | decide
      | omega

/-! ## C8: TIED impact bounds and gating bands -/

/-- C8: for every threat level, classification and persona,
`estimate_impact` returns `service_impact` and `user_impact` clamped to
[0,1], and `gating_decision` is derived from the pair by the two cut
points 0.4 and 0.7, both values having to clear a band independently. -/
theorem estimate_impact_bounds_and_gating (tl : String) (cls : ClassificationRing)
    (p : Persona) :
    0 ≤ (estimate_impact tl cls p).service_impact
    ∧ (estimate_impact tl cls p).service_impact ≤ 1
    ∧ 0 ≤ (estimate_impact tl cls p).user_impact
    ∧ (estimate_impact tl cls p).user_impact ≤ 1
    ∧ (estimate_impact tl cls p).gating_decision =
        spec_gating (estimate_impact tl cls p).service_impact
          (estimate_impact tl cls p).user_impact := by
  cases p <;>
    exact ⟨le_max_left _ _, max_le zero_le_one (min_le_left _ _),
      le_max_left _ _, max_le zero_le_one (min_le_left _ _), rfl⟩

/-! ## C10: the doctrine gate is the identity outside guardian + SECRET -/

/-- C10: whenever the persona is not guardian or the classification is not
SECRET (including when either is absent), `_apply_doctrine` returns the
proposed mitigations unchanged and in order, with `roe_applied`,
`disruption_limited` and `ao_required` all false and
`gating_decision = "allow"`. -/
theorem apply_doctrine_identity (p : Option Persona) (c : Option ClassificationRing)
    (ms : List MitigationAction)
    (h : ¬ (p = some Persona.GUARDIAN ∧ c = some ClassificationRing.SECRET)) :
    (apply_doctrine p c ms).1 = ms
    ∧ (apply_doctrine p c ms).2.roe_applied = false
    ∧ (apply_doctrine p c ms).2.disruption_limited = false
    ∧ (apply_doctrine p c ms).2.ao_required = false
    ∧ (apply_doctrine p c ms).2.gating_decision = "allow" := by
  have hg : ¬ (persona_norm p = some "guardian" ∧ classification_norm c = some "SECRET") := by
    rintro ⟨h1, h2⟩
    refine h ⟨?_, ?_⟩
    · rcases p with _ | pp
      · exact absurd h1 (by decide)
      · cases pp
        · rfl
        · exact absurd h1 (by decide)
    · rcases c with _ | cc
      · exact absurd h2 (by decide)
      · cases cc <;> first | rfl | exact absurd h2 (by decide)
  simp only [apply_doctrine]
  rw [if_neg hg]
  exact ⟨rfl, rfl, rfl, rfl, rfl⟩

/-- C10 witness: a sentinel persona at SECRET passes a proposed `block_ip`
through untouched. -/
theorem apply_doctrine_identity_witness :
    (apply_doctrine (some Persona.SENTINEL) (some ClassificationRing.SECRET)
        [{ action := "block_ip", target := some "203.0.113.7", reason := "w", confidence := 1 }]).1
      = [{ action := "block_ip", target := some "203.0.113.7", reason := "w", confidence := 1 }]
    ∧ (apply_doctrine (some Persona.SENTINEL) (some ClassificationRing.SECRET)
        [{ action := "block_ip", target := some "203.0.113.7", reason := "w", confidence := 1 }]).2.roe_applied = false
    ∧ (apply_doctrine (some Persona.SENTINEL) (some ClassificationRing.SECRET)
        [{ action := "block_ip", target := some "203.0.113.7", reason := "w", confidence := 1 }]).2.disruption_limited = false
    ∧ (apply_doctrine (some Persona.SENTINEL) (some ClassificationRing.SECRET)
        [{ action := "block_ip", target := some "203.0.113.7", reason := "w", confidence := 1 }]).2.ao_required = false
    ∧ (apply_doctrine (some Persona.SENTINEL) (some ClassificationRing.SECRET)
        [{ action := "block_ip", target := some "203.0.113.7", reason := "w", confidence := 1 }]).2.gating_decision = "allow" :=
  apply_doctrine_identity (some Persona.SENTINEL) (some ClassificationRing.SECRET)
    [{ action := "block_ip", target := some "203.0.113.7", reason := "w", confidence := 1 }]
    (by decide)

/-! ## C2: persistence failures never surface; duplicates are no-ops -/

/-- C2: the `defend` operation returns the computed decision whatever the
storage outcome, and a duplicate `event_id` insert is a rollback no-op
rather than an error. -/
theorem defend_returns_decision_best_effort (req : TelemetryInput) (drift : Int)
    (db : List DecisionRecord) (outcome : InsertOutcome) :
    (defend req drift db outcome).1 = defend_response req drift
    ∧ (defend req drift db InsertOutcome.duplicateKey).2
        = (db, PersistStatus.duplicateNoop) :=
  ⟨rfl, rfl⟩

/-! ## C5: score is the sum of triggered rule weights; threat level is the
step function of the score -/

theorem evaluate_rules_triggered_cases (req : TelemetryInput) :
    (evaluate req).rules_triggered = ["rule:ssh_bruteforce"]
    ∨ (evaluate req).rules_triggered = ["rule:default_allow"] := by
  unfold evaluate
  dsimp only
  split
  · exact Or.inl rfl
  · exact Or.inr rfl

/-- C5: for every evaluated event, `score` is the sum of the weights of the
triggered rules; `threat_level` is the monotonic step function of the score
with thresholds 80/50/20; and when the bruteforce rule does not fire the
catch-all `rule:default_allow`, of weight 0, is the rule triggered. -/
theorem evaluate_score_and_threat (req : TelemetryInput) :
    (evaluate req).score = ((evaluate req).rules_triggered.map RULE_SCORES).sum
    ∧ (evaluate req).threat_level = spec_threat_step (evaluate req).score
    ∧ (∀ s t : Int, s ≤ t → threatRank (spec_threat_step s) ≤ threatRank (spec_threat_step t))
    ∧ ("rule:ssh_bruteforce" ∉ (evaluate req).rules_triggered →
        (evaluate req).rules_triggered = ["rule:default_allow"]
        ∧ RULE_SCORES "rule:default_allow" = 0) := by
  refine ⟨rfl, rfl, fun s t h => spec_threat_step_mono h, fun hmem => ?_⟩
  rcases evaluate_rules_triggered_cases req with hcase | hcase
  · rw [hcase] at hmem
    exact absurd (List.mem_singleton.mpr rfl) hmem
  · exact ⟨hcase, by decide⟩

/-- C5 witness: an empty payload triggers only the catch-all, and the step
function is monotone between the sample scores 10 and 90. -/
theorem evaluate_score_and_threat_witness :
    ((evaluate ⟨"t1", "s1", "2026-01-01T00:00:00Z", [], none, none⟩).rules_triggered
        = ["rule:default_allow"]
      ∧ RULE_SCORES "rule:default_allow" = 0)
    ∧ threatRank (spec_threat_step 10) ≤ threatRank (spec_threat_step 90) :=
  ⟨(evaluate_score_and_threat ⟨"t1", "s1", "2026-01-01T00:00:00Z", [], none, none⟩).2.2.2
      (by decide),
   (evaluate_score_and_threat ⟨"t1", "s1", "2026-01-01T00:00:00Z", [], none, none⟩).2.2.1
      10 90 (by decide)⟩

/-! ## C4: doctrine capping of disruptive mitigations -/

/-- A proposed `block_ip` mitigation used in the C4 scenario. -/
def c4mit (ip : String) : MitigationAction :=
  { action := "block_ip", target := some ip,
    reason := "12 failed auth attempts detected", confidence := 0.92 }

/-- C4 counterexample: under guardian + SECRET with three proposed
`block_ip` mitigations, the gated output keeps only the first one — the
two additional disruptive mitigations are removed outright, not downgraded
to a `rate_limit` action with a "capped by doctrine" reason as the claim
states (`disruption_limited` is still set). -/
theorem apply_doctrine_drops_not_downgrades :
    (apply_doctrine (some Persona.GUARDIAN) (some ClassificationRing.SECRET)
        [c4mit "198.51.100.1", c4mit "198.51.100.2", c4mit "198.51.100.3"]).1
      = [c4mit "198.51.100.1"]
    ∧ ((apply_doctrine (some Persona.GUARDIAN) (some ClassificationRing.SECRET)
        [c4mit "198.51.100.1", c4mit "198.51.100.2", c4mit "198.51.100.3"]).1.filter
          fun m => m.action == "rate_limit") = []
    ∧ (apply_doctrine (some Persona.GUARDIAN) (some ClassificationRing.SECRET)
        [c4mit "198.51.100.1", c4mit "198.51.100.2", c4mit "198.51.100.3"]).2.disruption_limited
      = true :=
  ⟨rfl, rfl, rfl⟩

/-- C4 (amended): under guardian + SECRET, the gated output contains at
most one `block_ip`; `disruption_limited` records whether more than one was
proposed; and when more than one is proposed the first is kept (moved to
the front) and the additional disruptive mitigations are removed. -/
theorem apply_doctrine_caps_disruptive (ms : List MitigationAction) :
    ((apply_doctrine (some Persona.GUARDIAN) (some ClassificationRing.SECRET) ms).1.filter
        fun m => m.action == "block_ip").length ≤ 1
    ∧ (apply_doctrine (some Persona.GUARDIAN) (some ClassificationRing.SECRET)
        ms).2.disruption_limited
        = decide (1 < (ms.filter fun m => m.action == "block_ip").length)
    ∧ (1 < (ms.filter fun m => m.action == "block_ip").length →
        (apply_doctrine (some Persona.GUARDIAN) (some ClassificationRing.SECRET) ms).1
          = (ms.filter fun m => m.action == "block_ip").headI
              :: ms.filter fun m => m.action != "block_ip") := by
  have hg : persona_norm (some Persona.GUARDIAN) = some "guardian"
      ∧ classification_norm (some ClassificationRing.SECRET) = some "SECRET" := by decide
  simp only [apply_doctrine]
  rw [if_pos hg]
  dsimp only
  by_cases hlen : 1 < (ms.filter fun m => m.action == "block_ip").length
  · rw [if_pos hlen]
    refine ⟨?_, rfl, fun _ => rfl⟩
    rcases hBv : ms.filter fun m => m.action == "block_ip" with _ | ⟨b, t⟩
    · rw [hBv] at hlen; simp at hlen
    · have hbmem : b ∈ ms.filter fun m => m.action == "block_ip" := by
        rw [hBv]; exact List.mem_cons_self b t
      have hbp : (b.action == "block_ip") = true := (List.mem_filter.mp hbmem).2
      rw [hBv]
      simp only [List.headI, List.filter_cons, hbp, if_pos]
      rw [List.filter_filter]
      have hff : ∀ m : MitigationAction,
          ((m.action == "block_ip") && (m.action != "block_ip")) = false := by
        intro m; cases hma : m.action == "block_ip" <;> simp [bne, hma]
      rw [List.filter_congr fun m _ => hff m, List.filter_false]
      simp
  · rw [if_neg hlen]
    exact ⟨by omega, rfl, fun h => absurd h hlen⟩

/-- C4 witness: the amended statement at the three-`block_ip` scenario. -/
theorem apply_doctrine_caps_disruptive_witness :
    (apply_doctrine (some Persona.GUARDIAN) (some ClassificationRing.SECRET)
        [c4mit "198.51.100.7", c4mit "198.51.100.8", c4mit "198.51.100.9"]).1
      = ([c4mit "198.51.100.7", c4mit "198.51.100.8", c4mit "198.51.100.9"].filter
          fun m => m.action == "block_ip").headI
          :: [c4mit "198.51.100.7", c4mit "198.51.100.8", c4mit "198.51.100.9"].filter
              fun m => m.action != "block_ip" :=
  (apply_doctrine_caps_disruptive
    [c4mit "198.51.100.7", c4mit "198.51.100.8", c4mit "198.51.100.9"]).2.2 (by decide)

/-! ## C7: diff nullity and threat-level change entries -/

theorem compute_decision_diff_eq_none_iff (prev : Option Snapshot) (curr : Snapshot) :
    compute_decision_diff prev curr = none ↔ prev = none := by
  cases prev <;> simp [compute_decision_diff]

/-- C7: the decision diff is null exactly when no prior `DecisionRecord`
exists for the fingerprint (tenant_id, source, event_type); when a prior
record exists and the threat levels differ, the diff's changes list
contains a `threat_level` entry carrying the previous and current levels. -/
theorem diff_null_iff_no_prior (db : List DecisionRecord) (tid src et : String)
    (curr : Snapshot) :
    (diff_for_request db tid src et curr = none
      ↔ ∀ r ∈ db, ¬(r.tenant_id = tid ∧ r.source = src ∧ r.event_type = et))
    ∧ (∀ pr, fingerprint_prev db tid src et = some pr →
        pr.threat_level ≠ curr.threat_level →
        ∀ d, diff_for_request db tid src et curr = some d →
          DiffChange.threat_level pr.threat_level curr.threat_level ∈ d.changes) := by
  constructor
  · rw [diff_for_request, compute_decision_diff_eq_none_iff, Option.map_eq_none',
      fingerprint_prev, List.getLast?_eq_none_iff, List.filter_eq_nil_iff]
    constructor
    · intro h r hr hc
      exact h r hr (by simp [hc.1, hc.2.1, hc.2.2])
    · intro h r hr hb
      simp only [Bool.and_eq_true, beq_iff_eq] at hb
      exact h r hr ⟨hb.1.1, hb.1.2, hb.2⟩
  · intro pr hpr hne d hd
    rw [diff_for_request, hpr] at hd
    rw [show Option.map snapshot_from_record (some pr)
        = some (snapshot_from_record pr) from rfl] at hd
    simp only [compute_decision_diff] at hd
    have hne2 : (snapshot_from_record pr).threat_level ≠ curr.threat_level := hne
    rw [if_pos hne2] at hd
    simp only [Option.some.injEq] at hd
    rw [← hd]
    simp [snapshot_from_record]

/-- The prior record of the C7 witness scenario: a low-threat decision for
fingerprint (t1, s1, auth). -/
def c7rec : DecisionRecord :=
  { tenant_id := "t1", source := "s1", event_id := "e-prev", event_type := "auth",
    threat_level := "low", rules_triggered := ["rule:default_allow"], created_at := "T0",
    explain_score := some 0, prev_hash := none, chain_hash := "h0" }

/-- C7 witness: with one prior low-threat record on the fingerprint and a
current high-threat snapshot, the diff's changes contain the
`threat_level` low→high entry. -/
theorem diff_null_iff_no_prior_witness :
    DiffChange.threat_level "low" "high"
      ∈ ((diff_for_request [c7rec] "t1" "s1" "auth"
          (snapshot_from_current "high" ["rule:ssh_bruteforce"] 90)).getD default).changes :=
  (diff_null_iff_no_prior [c7rec] "t1" "s1" "auth"
      (snapshot_from_current "high" ["rule:ssh_bruteforce"] 90)).2
    c7rec (by decide) (by decide)
    ((diff_for_request [c7rec] "t1" "s1" "auth"
        (snapshot_from_current "high" ["rule:ssh_bruteforce"] 90)).getD default)
    (by decide)

/-! ## C9: the zero-count bruteforce diagnostic rule -/

/-- C9: an event whose (normalized) type declares a bruteforce-family label
but whose payload carries a zero failed-auth count triggers the diagnostic
rule `rule:missing_failed_count`, does not trigger the bruteforce rule, and
comes out at the medium threat level. -/
theorem missing_failed_count_diagnostic (t : TelemetryInput)
    (hl : strContains (pyLower (extract_payload_and_meta t).event_type) "bruteforce" = true
        ∨ strContains (pyLower (extract_payload_and_meta t).event_type) "brute_force" = true)
    (h0 : rules_failed_auths (extract_payload_and_meta t).payload = 0) :
    "rule:missing_failed_count" ∈ (evaluate_rules t).rules_triggered
    ∧ "rule:ssh_bruteforce" ∉ (evaluate_rules t).rules_triggered
    ∧ (evaluate_rules t).threat_level = "medium" := by
  have hb : (strContains (pyLower (extract_payload_and_meta t).event_type) "bruteforce"
      || strContains (pyLower (extract_payload_and_meta t).event_type) "brute_force")
      = true := by
    rcases hl with h | h <;> simp [h]
  cases hllm : (extract_payload_and_meta t).event_type == "suspicious_llm_usage" <;>
  · unfold evaluate_rules
    dsimp only
    rw [h0, hb, hllm]
    refine ⟨by simp, ?_, by simp⟩
    intro hmem
    simp [List.mem_append] at hmem

/-- The C9 witness envelope: a bruteforce-labelled event without any
failed-auth count field. -/
def c9req : TelemetryInput :=
  { tenant_id := "t1", source := "edge1", timestamp := "2026-01-01T00:00:00Z",
    payload := [("event_type", .sc (.str "auth.bruteforce"))],
    persona := none, classification := none }

/-- C9 counterexample: on the same kind of input — a bruteforce-labelled
envelope carrying a zero failed-auth count — the inline MVP evaluator of
the `/defend` endpoint (`evaluate` in `src/api/defend.py`, also cited by
the claim) has no diagnostic rule at all: it falls through to the
catch-all `rule:default_allow` at threat level none, silently passing the
malformed signal as benign instead of triggering
`rule:missing_failed_count`. -/
theorem defend_evaluate_silently_passes :
    (evaluate c9req).rules_triggered = ["rule:default_allow"]
    ∧ (evaluate c9req).threat_level = "none"
    ∧ "rule:missing_failed_count" ∉ (evaluate c9req).rules_triggered := by
  decide

/-- C9 witness: the diagnostic fires on a concrete bruteforce-labelled,
zero-count envelope. -/
theorem missing_failed_count_diagnostic_witness :
    "rule:missing_failed_count" ∈ (evaluate_rules c9req).rules_triggered
    ∧ "rule:ssh_bruteforce" ∉ (evaluate_rules c9req).rules_triggered
    ∧ (evaluate_rules c9req).threat_level = "medium" :=
  missing_failed_count_diagnostic c9req (Or.inl (by decide)) (by decide)

/-! ## C6: monotonicity in the failed-auth count -/

/-- The C6 envelope family: a bruteforce-labelled event whose payload
carries `failed_auths = n` and nothing else. -/
def c6req (n : Int) : TelemetryInput :=
  { tenant_id := "t1", source := "edge1", timestamp := "2026-01-01T00:00:00Z",
    payload := [("event_type", .sc (.str "auth.bruteforce")), ("failed_auths", .sc (.int n))],
    persona := none, classification := none }

/-- C6 counterexample: two envelopes identical except for the failed-auth
count (0 versus 1). The rules engine gives the zero-count envelope the
medium threat level (the `missing_failed_count` diagnostic) but the
one-count envelope only low, so the envelope with the larger count comes
out strictly lower — evaluation is not monotone in the failed-auth count. -/
theorem evaluate_rules_nonmonotone_zero_count :
    (evaluate_rules (c6req 0)).threat_level = "medium"
    ∧ (evaluate_rules (c6req 1)).threat_level = "low"
    ∧ threatRank (evaluate_rules (c6req 1)).threat_level
        < threatRank (evaluate_rules (c6req 0)).threat_level := by
  decide

theorem pyGet_cons_of_ne (k k2 : String) (v : Val) (rest : Payload)
    (h : (k2 == k) = false) : pyGet k ((k2, v) :: rest) = pyGet k rest := by
  unfold pyGet lookupVal
  rw [List.find?_cons_of_neg _ (by simp [h])]

theorem pyGet_head_int (k : String) (n : Int) (rest : Payload) :
    pyGet k ((k, .sc (.int n)) :: rest) = some (.sc (.int n)) := by
  unfold pyGet lookupVal
  rw [List.find?_cons_of_pos _ (by simp)]
  rfl

theorem normalize_failed_auths_head (rest : Payload) (n : Int) (hn : n ≠ 0) :
    normalize_failed_auths (("failed_auths", .sc (.int n)) :: rest) = n := by
  have ht : (Val.sc (.int n)).truthy = true := by
    simp [Val.truthy, Scalar.truthy, hn]
  unfold normalize_failed_auths
  rw [pyGet_head_int]
  simp [pyOr, ht, intOr0]

theorem rules_failed_auths_head (rest : Payload) (n : Int) (hn : n ≠ 0) :
    rules_failed_auths (("failed_auths", .sc (.int n)) :: rest) = n := by
  have ht : (Val.sc (.int n)).truthy = true := by
    simp [Val.truthy, Scalar.truthy, hn]
  unfold rules_failed_auths
  rw [pyGet_head_int]
  simp [pyOr, ht, coerce_int]

theorem normalize_ip_cons_failed (v : Val) (rest : Payload) :
    normalize_ip (("failed_auths", v) :: rest) = normalize_ip rest := by
  unfold normalize_ip
  rw [pyGet_cons_of_ne "src_ip" "failed_auths" v rest (by decide),
    pyGet_cons_of_ne "source_ip" "failed_auths" v rest (by decide),
    pyGet_cons_of_ne "source_ip_addr" "failed_auths" v rest (by decide),
    pyGet_cons_of_ne "ip" "failed_auths" v rest (by decide),
    pyGet_cons_of_ne "remote_ip" "failed_auths" v rest (by decide)]

theorem coerce_event_type_cons_failed (tid src ts : String) (pers : Option Persona)
    (cls : Option ClassificationRing) (v : Val) (rest : Payload) :
    coerce_event_type ⟨tid, src, ts, ("failed_auths", v) :: rest, pers, cls⟩
      = coerce_event_type ⟨tid, src, ts, rest, pers, cls⟩ := by
  unfold coerce_event_type
  rw [pyGet_cons_of_ne "event_type" "failed_auths" v rest (by decide)]

theorem extract_event_type_cons_failed (tid src ts : String) (pers : Option Persona)
    (cls : Option ClassificationRing) (v : Val) (rest : Payload) :
    (extract_payload_and_meta ⟨tid, src, ts, ("failed_auths", v) :: rest, pers, cls⟩).event_type
      = (extract_payload_and_meta ⟨tid, src, ts, rest, pers, cls⟩).event_type := by
  unfold extract_payload_and_meta
  dsimp only
  rw [pyGet_cons_of_ne "event_type" "failed_auths" v rest (by decide),
    pyGet_cons_of_ne "type" "failed_auths" v rest (by decide)]

/-- Models `evaluate` reduced to its two possible outcomes. -/
theorem evaluate_cases (req : TelemetryInput) :
    (evaluate req).score =
      (if (coerce_event_type req = "auth" ∨ coerce_event_type req = "auth.bruteforce"
            ∨ coerce_event_type req = "auth_attempt")
          ∧ 5 ≤ normalize_failed_auths req.payload ∧ (normalize_ip req.payload).isSome
        then 90 else 0)
    ∧ (evaluate req).threat_level =
      (if (coerce_event_type req = "auth" ∨ coerce_event_type req = "auth.bruteforce"
            ∨ coerce_event_type req = "auth_attempt")
          ∧ 5 ≤ normalize_failed_auths req.payload ∧ (normalize_ip req.payload).isSome
        then "high" else "none") := by
  unfold evaluate coerce_event_payload
  dsimp only
  by_cases hc : (coerce_event_type req = "auth" ∨ coerce_event_type req = "auth.bruteforce"
      ∨ coerce_event_type req = "auth_attempt")
      ∧ 5 ≤ normalize_failed_auths req.payload ∧ (normalize_ip req.payload).isSome
  · simp only [hc, ite_true, if_true]
    exact ⟨by decide, by decide⟩
  · simp only [hc, ite_false, if_false]
    exact ⟨by decide, by decide⟩

/-- Models `evaluate_rules` threat level for a nonzero failed-auth count. -/
theorem evaluate_rules_threat_of_nonzero (t : TelemetryInput)
    (hfa : rules_failed_auths (extract_payload_and_meta t).payload ≠ 0) :
    (evaluate_rules t).threat_level =
      if 10 ≤ rules_failed_auths (extract_payload_and_meta t).payload then "high"
      else if (extract_payload_and_meta t).event_type == "suspicious_llm_usage" then "medium"
      else "low" := by
  unfold evaluate_rules
  dsimp only
  have h0 : decide (rules_failed_auths (extract_payload_and_meta t).payload = 0) = false := by
    simp [hfa]
  rw [h0]
  simp only [Bool.and_false]
  by_cases h10 : 10 ≤ rules_failed_auths (extract_payload_and_meta t).payload
  · have hd : decide (10 ≤ rules_failed_auths (extract_payload_and_meta t).payload) = true := by
      simp [h10]
    rw [hd, if_pos h10]
    simp
  · have hd : decide (10 ≤ rules_failed_auths (extract_payload_and_meta t).payload) = false := by
      simp [h10]
    rw [hd, if_neg h10]
    cases hllm : (extract_payload_and_meta t).event_type == "suspicious_llm_usage" <;>
      simp [hllm]

/-- C6 (amended): for envelopes identical except for a nonzero
`failed_auths` count (the zero-count case triggers the
`missing_failed_count` diagnostic, see the counterexample), the envelope
with the larger count never yields a strictly smaller score or a strictly
lower threat level, for the endpoint evaluator and the rules engine. -/
theorem evaluate_monotone_in_failed_auths (tid src ts : String)
    (pers : Option Persona) (cls : Option ClassificationRing) (rest : Payload)
    (n1 n2 : Int) (h1 : 1 ≤ n1) (h12 : n1 ≤ n2) :
    (evaluate ⟨tid, src, ts, ("failed_auths", .sc (.int n1)) :: rest, pers, cls⟩).score
      ≤ (evaluate ⟨tid, src, ts, ("failed_auths", .sc (.int n2)) :: rest, pers, cls⟩).score
    ∧ threatRank (evaluate ⟨tid, src, ts, ("failed_auths", .sc (.int n1)) :: rest,
          pers, cls⟩).threat_level
      ≤ threatRank (evaluate ⟨tid, src, ts, ("failed_auths", .sc (.int n2)) :: rest,
          pers, cls⟩).threat_level
    ∧ threatRank (evaluate_rules ⟨tid, src, ts, ("failed_auths", .sc (.int n1)) :: rest,
          pers, cls⟩).threat_level
      ≤ threatRank (evaluate_rules ⟨tid, src, ts, ("failed_auths", .sc (.int n2)) :: rest,
          pers, cls⟩).threat_level := by
  have hn1 : n1 ≠ 0 := by omega
  have hn2 : n2 ≠ 0 := by omega
  have hfa1 : normalize_failed_auths (("failed_auths", Val.sc (.int n1)) :: rest) = n1 :=
    normalize_failed_auths_head rest n1 hn1
  have hfa2 : normalize_failed_auths (("failed_auths", Val.sc (.int n2)) :: rest) = n2 :=
    normalize_failed_auths_head rest n2 hn2
  have het1 := coerce_event_type_cons_failed tid src ts pers cls (Val.sc (.int n1)) rest
  have het2 := coerce_event_type_cons_failed tid src ts pers cls (Val.sc (.int n2)) rest
  have hip1 := normalize_ip_cons_failed (Val.sc (.int n1)) rest
  have hip2 := normalize_ip_cons_failed (Val.sc (.int n2)) rest
  obtain ⟨hs1, ht1⟩ := evaluate_cases
    ⟨tid, src, ts, ("failed_auths", Val.sc (.int n1)) :: rest, pers, cls⟩
  obtain ⟨hs2, ht2⟩ := evaluate_cases
    ⟨tid, src, ts, ("failed_auths", Val.sc (.int n2)) :: rest, pers, cls⟩
  dsimp only at hs1 ht1 hs2 ht2
  rw [het1, hfa1, hip1] at hs1 ht1
  rw [het2, hfa2, hip2] at hs2 ht2
  refine ⟨?_, ?_, ?_⟩
  · rw [hs1, hs2]
    by_cases hc2 : (coerce_event_type ⟨tid, src, ts, rest, pers, cls⟩ = "auth"
        ∨ coerce_event_type ⟨tid, src, ts, rest, pers, cls⟩ = "auth.bruteforce"
        ∨ coerce_event_type ⟨tid, src, ts, rest, pers, cls⟩ = "auth_attempt")
        ∧ 5 ≤ n2 ∧ (normalize_ip rest).isSome
    · simp only [hc2, true_and, and_true, ite_true, if_true]
      split <;> omega
    · have hc1 : ¬ ((coerce_event_type ⟨tid, src, ts, rest, pers, cls⟩ = "auth"
          ∨ coerce_event_type ⟨tid, src, ts, rest, pers, cls⟩ = "auth.bruteforce"
          ∨ coerce_event_type ⟨tid, src, ts, rest, pers, cls⟩ = "auth_attempt")
          ∧ 5 ≤ n1 ∧ (normalize_ip rest).isSome) := by
        intro hc
        exact hc2 ⟨hc.1, by omega, hc.2.2⟩
      simp only [hc1, hc2, ite_false, if_false]
      omega
  · rw [ht1, ht2]
    by_cases hc2 : (coerce_event_type ⟨tid, src, ts, rest, pers, cls⟩ = "auth"
        ∨ coerce_event_type ⟨tid, src, ts, rest, pers, cls⟩ = "auth.bruteforce"
        ∨ coerce_event_type ⟨tid, src, ts, rest, pers, cls⟩ = "auth_attempt")
        ∧ 5 ≤ n2 ∧ (normalize_ip rest).isSome
    · simp only [hc2, true_and, and_true, ite_true, if_true]
      split <;> decide
    · have hc1 : ¬ ((coerce_event_type ⟨tid, src, ts, rest, pers, cls⟩ = "auth"
          ∨ coerce_event_type ⟨tid, src, ts, rest, pers, cls⟩ = "auth.bruteforce"
          ∨ coerce_event_type ⟨tid, src, ts, rest, pers, cls⟩ = "auth_attempt")
          ∧ 5 ≤ n1 ∧ (normalize_ip rest).isSome) := by
        intro hc
        exact hc2 ⟨hc.1, by omega, hc.2.2⟩
      simp only [hc1, hc2, ite_false, if_false]
      decide
  · have hfa1' : rules_failed_auths (extract_payload_and_meta
        ⟨tid, src, ts, ("failed_auths", Val.sc (.int n1)) :: rest, pers, cls⟩).payload = n1 :=
      rules_failed_auths_head rest n1 hn1
    have hfa2' : rules_failed_auths (extract_payload_and_meta
        ⟨tid, src, ts, ("failed_auths", Val.sc (.int n2)) :: rest, pers, cls⟩).payload = n2 :=
      rules_failed_auths_head rest n2 hn2
    have hr1 := evaluate_rules_threat_of_nonzero
      ⟨tid, src, ts, ("failed_auths", Val.sc (.int n1)) :: rest, pers, cls⟩
      (by rw [hfa1']; exact hn1)
    have hr2 := evaluate_rules_threat_of_nonzero
      ⟨tid, src, ts, ("failed_auths", Val.sc (.int n2)) :: rest, pers, cls⟩
      (by rw [hfa2']; exact hn2)
    rw [hfa1'] at hr1
    rw [hfa2'] at hr2
    have hetx := extract_event_type_cons_failed tid src ts pers cls (Val.sc (.int n1)) rest
    have hety := extract_event_type_cons_failed tid src ts pers cls (Val.sc (.int n2)) rest
    rw [hetx] at hr1
    rw [hety] at hr2
    rw [hr1, hr2]
    by_cases h10b : 10 ≤ n2
    · rw [if_pos h10b]
      split
      · decide
      · split <;> decide
    · have h10a : ¬ 10 ≤ n1 := by omega
      rw [if_neg h10a, if_neg h10b]

/-- C6 witness: the amended monotonicity at counts 5 and 12 on the spec's
concrete auth scenario. -/
theorem evaluate_monotone_in_failed_auths_witness :
    (evaluate ⟨"t1", "edge1", "2026-01-01T00:00:00Z", ("failed_auths", .sc (.int 5))
        :: [("event_type", .sc (.str "auth")), ("src_ip", .sc (.str "192.0.2.10"))],
        none, none⟩).score
      ≤ (evaluate ⟨"t1", "edge1", "2026-01-01T00:00:00Z", ("failed_auths", .sc (.int 12))
          :: [("event_type", .sc (.str "auth")), ("src_ip", .sc (.str "192.0.2.10"))],
          none, none⟩).score
    ∧ threatRank (evaluate ⟨"t1", "edge1", "2026-01-01T00:00:00Z",
          ("failed_auths", .sc (.int 5))
          :: [("event_type", .sc (.str "auth")), ("src_ip", .sc (.str "192.0.2.10"))],
          none, none⟩).threat_level
      ≤ threatRank (evaluate ⟨"t1", "edge1", "2026-01-01T00:00:00Z",
          ("failed_auths", .sc (.int 12))
          :: [("event_type", .sc (.str "auth")), ("src_ip", .sc (.str "192.0.2.10"))],
          none, none⟩).threat_level
    ∧ threatRank (evaluate_rules ⟨"t1", "edge1", "2026-01-01T00:00:00Z",
          ("failed_auths", .sc (.int 5))
          :: [("event_type", .sc (.str "auth")), ("src_ip", .sc (.str "192.0.2.10"))],
          none, none⟩).threat_level
      ≤ threatRank (evaluate_rules ⟨"t1", "edge1", "2026-01-01T00:00:00Z",
          ("failed_auths", .sc (.int 12))
          :: [("event_type", .sc (.str "auth")), ("src_ip", .sc (.str "192.0.2.10"))],
          none, none⟩).threat_level :=
  evaluate_monotone_in_failed_auths "t1" "edge1" "2026-01-01T00:00:00Z" none none
    [("event_type", .sc (.str "auth")), ("src_ip", .sc (.str "192.0.2.10"))]
    5 12 (by decide) (by decide)

/-! ## C3: event identity is invariant under feature-map key order -/

/-- Strict key ordering on association-list entries. -/
def keyLt {α : Type} (a b : String × α) : Prop := a.1 < b.1

instance {α : Type} : IsAntisymm (String × α) keyLt :=
  ⟨fun _ _ h1 h2 => absurd h2 (lt_asymm h1)⟩

theorem find?_keyEq_cons_pos {α : Type} (x : String × α) (l : List (String × α))
    (k : String) (h : (x.1 == k) = true) :
    List.find? (fun kv => kv.1 == k) (x :: l) = some x :=
  @List.find?_cons_of_pos _ (fun kv => kv.1 == k) x l h

theorem find?_keyEq_cons_neg {α : Type} (x : String × α) (l : List (String × α))
    (k : String) (h : (x.1 == k) = false) :
    List.find? (fun kv => kv.1 == k) (x :: l) = List.find? (fun kv => kv.1 == k) l :=
  @List.find?_cons_of_neg _ (fun kv => kv.1 == k) x l (by simp [h])

/-- First-match association lookup is stable under permutation when the
keys are distinct. -/
theorem find?_key_eq_of_perm {α : Type} {l1 l2 : List (String × α)}
    (h : l1.Perm l2) (k : String) :
    (l1.map Prod.fst).Nodup →
      l1.find? (fun kv => kv.1 == k) = l2.find? (fun kv => kv.1 == k) := by
  induction h with
  | nil => intro _; rfl
  | cons x h ih =>
      intro hnd
      rw [List.map_cons] at hnd
      by_cases hx : (x.1 == k) = true
      · rw [find?_keyEq_cons_pos x _ k hx, find?_keyEq_cons_pos x _ k hx]
      · rw [find?_keyEq_cons_neg x _ k (by simpa using hx),
          find?_keyEq_cons_neg x _ k (by simpa using hx)]
        exact ih (List.nodup_cons.mp hnd).2
  | swap x y l =>
      intro hnd
      rw [List.map_cons, List.map_cons] at hnd
      have hne : y.1 ≠ x.1 := by
        intro hc
        apply (List.nodup_cons.mp hnd).1
        rw [hc]
        exact List.mem_cons_self _ _
      by_cases hy : (y.1 == k) = true
      · have hx : (x.1 == k) = false := by
          rcases beq_iff_eq.mp hy with rfl
          simp only [beq_eq_false_iff_ne, ne_eq]
          intro hc
          exact hne hc.symm
        rw [find?_keyEq_cons_pos y _ k hy, find?_keyEq_cons_neg x _ k hx,
          find?_keyEq_cons_pos y _ k hy]
      · by_cases hx : (x.1 == k) = true
        · rw [find?_keyEq_cons_neg y _ k (by simpa using hy), find?_keyEq_cons_pos x _ k hx,
            find?_keyEq_cons_pos x _ k hx]
        · rw [find?_keyEq_cons_neg y _ k (by simpa using hy),
            find?_keyEq_cons_neg x _ k (by simpa using hx),
            find?_keyEq_cons_neg x _ k (by simpa using hx),
            find?_keyEq_cons_neg y _ k (by simpa using hy)]
  | trans h1 h2 ih1 ih2 =>
      intro hnd
      exact (ih1 hnd).trans (ih2 ((h1.map Prod.fst).nodup hnd))

/-- Key-sorting is stable under permutation when the keys are distinct:
there is exactly one key-sorted arrangement. -/
theorem sortPairs_eq_of_perm {α : Type} {l1 l2 : List (String × α)}
    (h : l1.Perm l2) (hnd : (l1.map Prod.fst).Nodup) :
    sortPairs l1 = sortPairs l2 := by
  have hp1 : (sortPairs l1).Perm l1 := List.perm_insertionSort keyLe l1
  have hp2 : (sortPairs l2).Perm l2 := List.perm_insertionSort keyLe l2
  have hperm : (sortPairs l1).Perm (sortPairs l2) := hp1.trans (h.trans hp2.symm)
  have hnd1 : ((sortPairs l1).map Prod.fst).Nodup := ((hp1.map Prod.fst).symm).nodup hnd
  have hnd2 : ((sortPairs l2).map Prod.fst).Nodup :=
    ((hp2.map Prod.fst).symm).nodup ((h.map Prod.fst).nodup hnd)
  have hs1 : (sortPairs l1).Sorted keyLt := by
    have hle : (sortPairs l1).Sorted keyLe := List.sorted_insertionSort keyLe l1
    have hne : (sortPairs l1).Pairwise fun a b => a.1 ≠ b.1 := List.pairwise_map.mp hnd1
    exact (hle.and hne).imp fun hab => lt_of_le_of_ne hab.1 hab.2
  have hs2 : (sortPairs l2).Sorted keyLt := by
    have hle : (sortPairs l2).Sorted keyLe := List.sorted_insertionSort keyLe l2
    have hne : (sortPairs l2).Pairwise fun a b => a.1 ≠ b.1 := List.pairwise_map.mp hnd2
    exact (hle.and hne).imp fun hab => lt_of_le_of_ne hab.1 hab.2
  exact List.eq_of_perm_of_sorted hperm hs1 hs2

/-- C3: the event identity is a pure function of the canonical fields; two
envelopes that agree on tenant, source and timestamp and whose payload
dicts are equal up to key insertion order produce the same digest. -/
theorem event_id_key_order_invariant (r1 r2 : TelemetryInput)
    (ht : r1.tenant_id = r2.tenant_id) (hs : r1.source = r2.source)
    (hts : r1.timestamp = r2.timestamp) (hp : r1.payload.Perm r2.payload)
    (hnd : (r1.payload.map Prod.fst).Nodup) :
    event_id r1 = event_id r2 := by
  have hlook : ∀ k, pyGet k r1.payload = pyGet k r2.payload := by
    intro k
    unfold pyGet lookupVal
    rw [find?_key_eq_of_perm hp k hnd]
  have het : coerce_event_type r1 = coerce_event_type r2 := by
    unfold coerce_event_type
    rw [hlook "event_type"]
  have hcj : canonical_json r1.payload = canonical_json r2.payload := by
    unfold canonical_json
    rw [sortPairs_eq_of_perm hp hnd]
  unfold event_id coerce_event_payload
  rw [ht, hs, hts, het, hcj]

/-- C3 witness: the same two-feature payload in both insertion orders
yields the same event id. -/
theorem event_id_key_order_invariant_witness :
    event_id ⟨"t1", "edge1", "2026-01-01T00:00:00Z",
        [("failed_auths", .sc (.int 12)), ("src_ip", .sc (.str "192.0.2.10"))], none, none⟩
      = event_id ⟨"t1", "edge1", "2026-01-01T00:00:00Z",
        [("src_ip", .sc (.str "192.0.2.10")), ("failed_auths", .sc (.int 12))], none, none⟩ :=
  event_id_key_order_invariant
    ⟨"t1", "edge1", "2026-01-01T00:00:00Z",
      [("failed_auths", .sc (.int 12)), ("src_ip", .sc (.str "192.0.2.10"))], none, none⟩
    ⟨"t1", "edge1", "2026-01-01T00:00:00Z",
      [("src_ip", .sc (.str "192.0.2.10")), ("failed_auths", .sc (.int 12))], none, none⟩
    rfl rfl rfl (by decide) (by decide)

/-! ## C1: the audit chain hash link -/

end Frostgate
